import Mathlib

/-!
Shallow embedding of the forecasting core of the job-market forecasting
service: `backend/forecast_models.py` (feature engineering, the recursive
gradient-boosted forecaster, the ensemble combiner) and
`backend/forecasting.py` (forecast orchestrator, scoring engine, statistical
fallback).  Float arithmetic is modelled over `ℚ`; a missing value (pandas
NaN) is `none`; a call whose Python counterpart raises an exception returns
`none` at the call's result type.  Fitted third-party models (Prophet,
XGBoost regressors) are opaque: their outputs enter the embedding as
parameters, while everything the repository itself computes is translated
definitionally from the source.
-/

/-- Python `int(x)` applied to a float: truncation toward zero. -/
def pyInt (q : ℚ) : ℤ := if 0 ≤ q then ⌊q⌋ else ⌈q⌉

/-- Python `round(x)` to an integer: nearest, ties to even (banker's rounding). -/
def pyRoundInt (q : ℚ) : ℤ :=
  if q - ⌊q⌋ < 1/2 then ⌊q⌋
  else if 1/2 < q - ⌊q⌋ then ⌊q⌋ + 1
  else if 2 ∣ ⌊q⌋ then ⌊q⌋ else ⌊q⌋ + 1

/-- Python `round(x, 2)`: round to two decimal places. -/
def pyRound2 (q : ℚ) : ℚ := (pyRoundInt (q * 100) : ℚ) / 100

theorem pyInt_nonneg {q : ℚ} (h : 0 ≤ q) : 0 ≤ pyInt q := by
  simp only [pyInt, if_pos h]
  exact Int.floor_nonneg.mpr h

theorem pyInt_mono {q r : ℚ} (h : q ≤ r) : pyInt q ≤ pyInt r := by
  unfold pyInt
  split_ifs with hq hr hr
  · exact Int.floor_le_floor h
  · exact absurd (hq.trans h) hr
  · calc ⌈q⌉ ≤ ⌈(0:ℚ)⌉ := Int.ceil_le_ceil (le_of_not_le hq)
      _ = 0 := by simp
      _ ≤ ⌊r⌋ := Int.floor_nonneg.mpr hr
  · exact Int.ceil_le_ceil h

theorem pyInt_intCast (n : ℤ) : pyInt (n : ℚ) = n := by
  unfold pyInt
  split_ifs <;> simp

theorem pyInt_natCast (n : ℕ) : pyInt (n : ℚ) = n := by
  have := pyInt_intCast (n : ℤ)
  simpa using this

theorem pyRoundInt_bounds (q : ℚ) : ⌊q⌋ ≤ pyRoundInt q ∧ pyRoundInt q ≤ ⌊q⌋ + 1 := by
  unfold pyRoundInt
  split_ifs <;> omega

theorem pyRoundInt_mono {q r : ℚ} (h : q ≤ r) : pyRoundInt q ≤ pyRoundInt r := by
  have hf : ⌊q⌋ ≤ ⌊r⌋ := Int.floor_le_floor h
  rcases eq_or_lt_of_le hf with heq | hlt
  · have hfr : ((⌊q⌋ : ℚ)) = ((⌊r⌋ : ℚ)) := by exact_mod_cast heq
    have hd : q - (⌊q⌋ : ℚ) ≤ r - (⌊r⌋ : ℚ) := by rw [← hfr]; linarith
    by_cases hq1 : q - (⌊q⌋ : ℚ) < 1/2
    · have hvq : pyRoundInt q = ⌊q⌋ := by unfold pyRoundInt; rw [if_pos hq1]
      have := (pyRoundInt_bounds r).1
      omega
    · by_cases hq2 : 1/2 < q - (⌊q⌋ : ℚ)
      · have hb : 1/2 < r - (⌊r⌋ : ℚ) := lt_of_lt_of_le hq2 hd
        have hvq : pyRoundInt q = ⌊q⌋ + 1 := by
          unfold pyRoundInt; rw [if_neg hq1, if_pos hq2]
        have hvr : pyRoundInt r = ⌊r⌋ + 1 := by
          unfold pyRoundInt; rw [if_neg (by linarith), if_pos hb]
        omega
      · have ha : q - (⌊q⌋ : ℚ) = 1/2 := le_antisymm (le_of_not_lt hq2) (le_of_not_lt hq1)
        by_cases hb2 : 1/2 < r - (⌊r⌋ : ℚ)
        · have hvr : pyRoundInt r = ⌊r⌋ + 1 := by
            unfold pyRoundInt; rw [if_neg (by linarith), if_pos hb2]
          have := (pyRoundInt_bounds q).2
          omega
        · have hb : r - (⌊r⌋ : ℚ) = 1/2 := by
            have h12 : (1/2 : ℚ) ≤ r - (⌊r⌋ : ℚ) := by rw [ha] at hd; exact hd
            exact le_antisymm (le_of_not_lt hb2) h12
          have hvq : pyRoundInt q = if 2 ∣ ⌊q⌋ then ⌊q⌋ else ⌊q⌋ + 1 := by
            unfold pyRoundInt; rw [if_neg hq1, if_neg hq2]
          have hvr : pyRoundInt r = if 2 ∣ ⌊r⌋ then ⌊r⌋ else ⌊r⌋ + 1 := by
            unfold pyRoundInt
            rw [if_neg (by rw [hb]; norm_num), if_neg (by rw [hb]; norm_num)]
          rw [hvq, hvr, heq]
  · have h1 := (pyRoundInt_bounds q).2
    have h2 := (pyRoundInt_bounds r).1
    omega

theorem pyRoundInt_intCast (n : ℤ) : pyRoundInt (n : ℚ) = n := by
  unfold pyRoundInt
  rw [Int.floor_intCast]
  norm_num

theorem pyRound2_mono {q r : ℚ} (h : q ≤ r) : pyRound2 q ≤ pyRound2 r := by
  unfold pyRound2
  have : pyRoundInt (q * 100) ≤ pyRoundInt (r * 100) :=
    pyRoundInt_mono (by linarith)
  have hc : ((pyRoundInt (q * 100) : ℚ)) ≤ ((pyRoundInt (r * 100) : ℚ)) := by exact_mod_cast this
  linarith

theorem pyRound2_nonneg {q : ℚ} (h : 0 ≤ q) : 0 ≤ pyRound2 q := by
  have h0 : pyRound2 0 = 0 := by
    unfold pyRound2
    rw [show ((0:ℚ) * 100) = ((0:ℤ) : ℚ) by norm_num, pyRoundInt_intCast]
    norm_num
  calc (0:ℚ) = pyRound2 0 := h0.symm
    _ ≤ pyRound2 q := pyRound2_mono h

theorem pyRound2_le_hundred {q : ℚ} (h : q ≤ 100) : pyRound2 q ≤ 100 := by
  have h100 : pyRound2 100 = 100 := by
    unfold pyRound2
    rw [show ((100:ℚ) * 100) = ((10000:ℤ) : ℚ) by norm_num, pyRoundInt_intCast]
    norm_num
  calc pyRound2 q ≤ pyRound2 100 := pyRound2_mono h
    _ = 100 := h100

/-! ## Scoring engine (`backend/forecasting.py`, class `JobForecaster`) -/

/-- `JobForecaster.calculate_growth_rate`, applied to the per-month count
series it fetches (`_get_skill_historical_data(skill_name, months=6)`):
fewer than 6 points gives `0.0`; otherwise it compares the sum of the last
3 counts with the sum of the first 3 counts, returns `100.0` when the
earlier sum is zero, and otherwise the percentage change rounded to two
decimals (`round(growth, 2)`). -/
def calculate_growth_rate (historical : List ℤ) : ℚ :=
  if historical.length < 6 then 0
  else
    let recent : ℤ := (historical.drop (historical.length - 3)).sum
    let previous : ℤ := (historical.take 3).sum
    if previous = 0 then 100
    else pyRound2 (((recent - previous : ℤ) : ℚ) / (previous : ℚ) * 100)

/-- `JobForecaster._calculate_salary_premium`: the two averages come from the
database and may be missing (`None`).  Python's `not skill_avg` is also true
for `0.0`, so a zero skill average yields the neutral `50.0` as well. -/
def calculate_salary_premium (skillAvg overallAvg : Option ℚ) : ℚ :=
  match skillAvg, overallAvg with
  | some sa, some oa =>
      if sa = 0 ∨ oa = 0 then 50
      else
        let premium := (sa - oa) / oa * 100
        min 100 (max 0 (50 + premium / 2))
  | _, _ => 50

/-- `JobForecaster._calculate_demand_score`: `max_jobs` is the first row of
the grouped count query (`None` when no rows exist, in which case the
divisor defaults to 1). -/
def calculate_demand_score (skillJobs : ℕ) (maxJobs : Option ℕ) : ℚ :=
  let maxCount : ℕ := maxJobs.getD 1
  if 0 < maxCount then pyRound2 ((skillJobs : ℚ) / (maxCount : ℚ) * 100) else 0

/-- Normalisation of the raw job volume in `calculate_hotness_score`:
`min(100, (volume / 100) * 100)`. -/
def volume_norm (volume : ℕ) : ℚ := min 100 ((volume : ℚ) / 100 * 100)

/-- Normalisation of the growth rate in `calculate_hotness_score`:
`min(100, max(0, growth + 50))`. -/
def growth_norm (growth : ℚ) : ℚ := min 100 (max 0 (growth + 50))

/-- Normalisation of the salary premium in `calculate_hotness_score`:
`min(100, salary_premium)`. -/
def salary_norm (premium : ℚ) : ℚ := min 100 premium

/-- Normalisation of the demand score in `calculate_hotness_score`:
`min(100, demand_score)`. -/
def demand_norm (score : ℚ) : ℚ := min 100 score

/-- The weighted combination at the heart of
`JobForecaster.calculate_hotness_score`, as a function of the four already
normalised components; the result is `round(hotness, 2)`. -/
def hotness_weighted (a b c d v g s dm : ℚ) : ℚ :=
  pyRound2 (a * v + b * g + c * s + d * dm)

/-- `JobForecaster.calculate_hotness_score` assembled from its database
inputs: job volume, growth rate, salary premium and demand score are
normalised and then combined with the caller-supplied weights. -/
def calculate_hotness_score (a b c d : ℚ) (volume : ℕ) (growth premium demand : ℚ) : ℚ :=
  hotness_weighted a b c d (volume_norm volume) (growth_norm growth)
    (salary_norm premium) (demand_norm demand)

theorem salary_premium_range (sAvg oAvg : Option ℚ) :
    0 ≤ calculate_salary_premium sAvg oAvg ∧ calculate_salary_premium sAvg oAvg ≤ 100 := by
  unfold calculate_salary_premium
  rcases sAvg with _ | sa <;> rcases oAvg with _ | oa <;> try norm_num
  split_ifs with h
  · norm_num
  · constructor
    · exact le_min (by norm_num) (le_max_left _ _)
    · exact min_le_left _ _

theorem demand_score_nonneg (skillJobs : ℕ) (maxJobs : Option ℕ) :
    0 ≤ calculate_demand_score skillJobs maxJobs := by
  unfold calculate_demand_score
  simp only []
  split_ifs with h
  · exact pyRound2_nonneg (by positivity)
  · exact le_refl 0

theorem volume_norm_range (volume : ℕ) : 0 ≤ volume_norm volume ∧ volume_norm volume ≤ 100 := by
  unfold volume_norm
  constructor
  · exact le_min (by norm_num) (by positivity)
  · exact min_le_left _ _

theorem growth_norm_range (growth : ℚ) : 0 ≤ growth_norm growth ∧ growth_norm growth ≤ 100 := by
  unfold growth_norm
  exact ⟨le_min (by norm_num) (le_max_left _ _), min_le_left _ _⟩

/-- **C5** (counterexample).  `calculate_growth_rate` does not return the raw
percentage `((sum of last 3) - (sum of first 3)) / (sum of first 3) * 100`:
on the 6-point window `[3,3,3,4,4,4]` that formula gives `100/3` while the
code returns `round(growth, 2) = 33.33`. -/
theorem growth_rate_formula_counterexample :
    calculate_growth_rate [3,3,3,4,4,4] = 3333/100 ∧
    ¬ ((((4+4+4) - (3+3+3) : ℤ) : ℚ) / ((3+3+3 : ℤ) : ℚ) * 100 = 3333/100) := by
  constructor
  · norm_num [calculate_growth_rate, pyRound2, pyRoundInt]
  · norm_num

/-- **C5** (amended).  `calculate_growth_rate` over a window of exactly 6
period values returns `((sum of last 3) - (sum of first 3)) / (sum of
first 3) * 100` **rounded to two decimal places** (ties to even); it returns
`100.0` when the sum of the first 3 values is zero and `0.0` when fewer than
6 points exist; the windows `[10,10,10,10,10,10]` and `[10,10,10,20,20,20]`
yield `0.0` and `100.0` respectively. -/
theorem growth_rate_window_spec :
    (∀ h : List ℤ, h.length < 6 → calculate_growth_rate h = 0) ∧
    (∀ a b c d e f : ℤ,
      calculate_growth_rate [a,b,c,d,e,f] =
        if a + b + c = 0 then 100
        else pyRound2 ((((d + e + f) - (a + b + c) : ℤ) : ℚ) / ((a + b + c : ℤ) : ℚ) * 100)) ∧
    calculate_growth_rate [10,10,10,10,10,10] = 0 ∧
    calculate_growth_rate [10,10,10,20,20,20] = 100 := by
  refine ⟨?_, ?_, ?_, ?_⟩
  · intro h hl
    unfold calculate_growth_rate
    rw [if_pos hl]
  · intro a b c d e f
    have h6 : calculate_growth_rate [a,b,c,d,e,f]
        = if a + (b + (c + 0)) = 0 then (100:ℚ)
          else pyRound2 ((((d + (e + (f + 0))) - (a + (b + (c + 0))) : ℤ) : ℚ) /
            ((a + (b + (c + 0)) : ℤ) : ℚ) * 100) := rfl
    have hs1 : a + (b + (c + 0)) = a + b + c := by ring
    have hs2 : d + (e + (f + 0)) = d + e + f := by ring
    rw [h6, hs1, hs2]
  · norm_num [calculate_growth_rate, pyRound2, pyRoundInt]
  · norm_num [calculate_growth_rate, pyRound2, pyRoundInt]

/-- Witness for `growth_rate_window_spec` at concrete windows. -/
theorem growth_rate_window_spec_witness :
    (([(5:ℤ)].length < 6) ∧ calculate_growth_rate [(5:ℤ)] = 0) ∧
    calculate_growth_rate [(0:ℤ),0,0,9,9,9] = 100 := by
  refine ⟨⟨by norm_num, growth_rate_window_spec.1 [(5:ℤ)] (by norm_num)⟩, ?_⟩
  have h := growth_rate_window_spec.2.1 0 0 0 9 9 9
  rw [h]
  norm_num

/-- Bounds for the default-weight combination, given components in `[0,100]`. -/
theorem hotness_default_range {v g s dm : ℚ}
    (hv0 : 0 ≤ v) (hv1 : v ≤ 100) (hg0 : 0 ≤ g) (hg1 : g ≤ 100)
    (hs0 : 0 ≤ s) (hs1 : s ≤ 100) (hd0 : 0 ≤ dm) (hd1 : dm ≤ 100) :
    0 ≤ hotness_weighted (3/10) (3/10) (1/5) (1/5) v g s dm ∧
      hotness_weighted (3/10) (3/10) (1/5) (1/5) v g s dm ≤ 100 := by
  unfold hotness_weighted
  constructor
  · exact pyRound2_nonneg (by linarith)
  · exact pyRound2_le_hundred (by linarith)

/-- **C9**.  The weighted hotness combination is monotonically non-decreasing
in each of the four normalised components when its weight is non-negative
and the other components are held fixed; and with the default weights
`α = β = 0.3`, `γ = δ = 0.2`, `calculate_hotness_score` lies in `[0,100]`
for every job volume, growth rate, and salary/demand data the database can
supply. -/
theorem hotness_monotone_and_bounded :
    (∀ a b c d v g s dm v', 0 ≤ a → v ≤ v' →
      hotness_weighted a b c d v g s dm ≤ hotness_weighted a b c d v' g s dm) ∧
    (∀ a b c d v g s dm g', 0 ≤ b → g ≤ g' →
      hotness_weighted a b c d v g s dm ≤ hotness_weighted a b c d v g' s dm) ∧
    (∀ a b c d v g s dm s', 0 ≤ c → s ≤ s' →
      hotness_weighted a b c d v g s dm ≤ hotness_weighted a b c d v g s' dm) ∧
    (∀ a b c d v g s dm dm', 0 ≤ d → dm ≤ dm' →
      hotness_weighted a b c d v g s dm ≤ hotness_weighted a b c d v g s dm') ∧
    (∀ (volume : ℕ) (growth : ℚ) (sAvg oAvg : Option ℚ) (skillJobs : ℕ)
        (maxJobs : Option ℕ),
      0 ≤ calculate_hotness_score (3/10) (3/10) (1/5) (1/5) volume growth
            (calculate_salary_premium sAvg oAvg) (calculate_demand_score skillJobs maxJobs) ∧
      calculate_hotness_score (3/10) (3/10) (1/5) (1/5) volume growth
            (calculate_salary_premium sAvg oAvg) (calculate_demand_score skillJobs maxJobs)
          ≤ 100) := by
  refine ⟨?_, ?_, ?_, ?_, ?_⟩
  · intro a b c d v g s dm v' ha hv
    exact pyRound2_mono (by nlinarith [mul_le_mul_of_nonneg_left hv ha])
  · intro a b c d v g s dm g' hb hg
    exact pyRound2_mono (by nlinarith [mul_le_mul_of_nonneg_left hg hb])
  · intro a b c d v g s dm s' hc hs
    exact pyRound2_mono (by nlinarith [mul_le_mul_of_nonneg_left hs hc])
  · intro a b c d v g s dm dm' hd hdm
    exact pyRound2_mono (by nlinarith [mul_le_mul_of_nonneg_left hdm hd])
  · intro volume growth sAvg oAvg skillJobs maxJobs
    have hv := volume_norm_range volume
    have hg := growth_norm_range growth
    have hsp := salary_premium_range sAvg oAvg
    have hds := demand_score_nonneg skillJobs maxJobs
    have hs0 : 0 ≤ salary_norm (calculate_salary_premium sAvg oAvg) :=
      le_min (by norm_num) hsp.1
    have hs1 : salary_norm (calculate_salary_premium sAvg oAvg) ≤ 100 := min_le_left _ _
    have hd0 : 0 ≤ demand_norm (calculate_demand_score skillJobs maxJobs) :=
      le_min (by norm_num) hds
    have hd1 : demand_norm (calculate_demand_score skillJobs maxJobs) ≤ 100 := min_le_left _ _
    exact hotness_default_range hv.1 hv.2 hg.1 hg.2 hs0 hs1 hd0 hd1

/-- Witness for `hotness_monotone_and_bounded`: monotonicity in the volume
component at concrete values, and the default-weight bounds at concrete
database inputs. -/
theorem hotness_monotone_and_bounded_witness :
    ((0:ℚ) ≤ 3/10 ∧ (40:ℚ) ≤ 60) ∧
    hotness_weighted (3/10) (3/10) (1/5) (1/5) 40 50 50 50 ≤
      hotness_weighted (3/10) (3/10) (1/5) (1/5) 60 50 50 50 ∧
    (0 ≤ calculate_hotness_score (3/10) (3/10) (1/5) (1/5) 30 (-80)
          (calculate_salary_premium (some 120) (some 100)) (calculate_demand_score 3 (some 9)) ∧
      calculate_hotness_score (3/10) (3/10) (1/5) (1/5) 30 (-80)
          (calculate_salary_premium (some 120) (some 100)) (calculate_demand_score 3 (some 9))
        ≤ 100) :=
  ⟨⟨by norm_num, by norm_num⟩,
   hotness_monotone_and_bounded.1 (3/10) (3/10) (1/5) (1/5) 40 50 50 50 60
     (by norm_num) (by norm_num),
   hotness_monotone_and_bounded.2.2.2.2 30 (-80) (some 120) (some 100) 3 (some 9)⟩

/-! ## Feature engineer (`backend/forecast_models.py`,
`XGBoostForecaster.create_features`) -/

/-- One row of the frame built by `XGBoostForecaster.create_features` before
`dropna()`: the `value` column plus the lag, rolling and momentum columns of
`df`; a column whose pandas value at this row is NaN is `none`.
pandas `rolling(3).std()` is the sample standard deviation of the trailing
3-window; since that is an irrational square root in general, this field
stores its square, the sample variance: it is defined at exactly the same
rows (so `dropna()` is unaffected), and no claim inspects the numeric value
of the column — the fitted regressor consuming the row is opaque. -/
structure RawRow where
  value : ℚ
  lag_1 : Option ℚ
  lag_3 : Option ℚ
  lag_6 : Option ℚ
  lag_12 : Option ℚ
  rolling_mean_3 : Option ℚ
  rolling_std_3 : Option ℚ
  rolling_mean_6 : Option ℚ
  momentum_3 : Option ℚ
  momentum_6 : Option ℚ
  deriving Repr, DecidableEq, Inhabited

/-- Mean of the trailing window of width `w` ending at position `i`. -/
def windowMean (s : List ℚ) (i w : ℕ) : ℚ :=
  ((List.range w).map (fun j => s.getD (i - j) 0)).sum / (w : ℚ)

/-- Row `i` of the feature frame: `shift(lag)` is defined once `lag ≤ i`,
`rolling(w)` once `w ≤ i + 1`, and `diff(k)` once `k ≤ i`. -/
def rawRow (s : List ℚ) (i : ℕ) : RawRow :=
  { value := s.getD i 0
    lag_1 := if 1 ≤ i then some (s.getD (i-1) 0) else none
    lag_3 := if 3 ≤ i then some (s.getD (i-3) 0) else none
    lag_6 := if 6 ≤ i then some (s.getD (i-6) 0) else none
    lag_12 := if 12 ≤ i then some (s.getD (i-12) 0) else none
    rolling_mean_3 := if 2 ≤ i then some (windowMean s i 3) else none
    rolling_std_3 :=
      if 2 ≤ i then
        some (((s.getD (i-2) 0 - windowMean s i 3)^2 +
               (s.getD (i-1) 0 - windowMean s i 3)^2 +
               (s.getD i 0 - windowMean s i 3)^2) / 2)
      else none
    rolling_mean_6 := if 5 ≤ i then some (windowMean s i 6) else none
    momentum_3 := if 3 ≤ i then some (s.getD i 0 - s.getD (i-3) 0) else none
    momentum_6 := if 6 ≤ i then some (s.getD i 0 - s.getD (i-6) 0) else none }

/-- `dropna()` keeps a row exactly when every derived column is defined. -/
def RawRow.isDense (r : RawRow) : Bool :=
  r.lag_1.isSome && r.lag_3.isSome && r.lag_6.isSome && r.lag_12.isSome &&
  r.rolling_mean_3.isSome && r.rolling_std_3.isSome && r.rolling_mean_6.isSome &&
  r.momentum_3.isSome && r.momentum_6.isSome

/-- `XGBoostForecaster.create_features`: build one row per series position,
then `dropna()`.  The input series is read, never written. -/
def create_features (s : List ℚ) : List RawRow :=
  ((List.range s.length).map (rawRow s)).filter (fun r => r.isDense)

theorem rawRow_isDense (s : List ℚ) (i : ℕ) :
    (rawRow s i).isDense = decide (12 ≤ i) := by
  unfold RawRow.isDense rawRow
  by_cases h : 12 ≤ i
  · simp [h, show 1 ≤ i by omega, show 2 ≤ i by omega, show 3 ≤ i by omega,
      show 5 ≤ i by omega, show 6 ≤ i by omega]
  · simp only []
    rw [if_neg h]
    simp [h]

theorem create_features_eq (s : List ℚ) :
    create_features s = (List.range' 12 (s.length - 12)).map (rawRow s) := by
  unfold create_features
  have h1 : List.range s.length
      = List.range' 0 (min 12 s.length) ++ List.range' 12 (s.length - 12) := by
    rcases le_total s.length 12 with h | h
    · have h0 : s.length - 12 = 0 := by omega
      rw [h0, min_eq_right h]
      simp [List.range_eq_range']
    · rw [min_eq_left h, List.range_eq_range']
      have h2 : (12 : ℕ) + (s.length - 12) = s.length := by omega
      calc List.range' 0 s.length = List.range' 0 (12 + (s.length - 12)) := by rw [h2]
        _ = List.range' 0 12 ++ List.range' (0 + 12) (s.length - 12) := by
            rw [List.range'_append]
            congr 1
            omega
        _ = List.range' 0 12 ++ List.range' 12 (s.length - 12) := by norm_num
  rw [h1, List.map_append, List.filter_append]
  have hfirst : ((List.range' 0 (min 12 s.length)).map (rawRow s)).filter
      (fun r => r.isDense) = [] := by
    rw [List.filter_eq_nil_iff]
    intro r hr
    obtain ⟨i, hi, rfl⟩ := List.mem_map.mp hr
    have hlt : i < 12 := by
      have := (List.mem_range'_1.mp hi).2
      omega
    rw [rawRow_isDense]
    simp
    omega
  have hsecond : ((List.range' 12 (s.length - 12)).map (rawRow s)).filter
      (fun r => r.isDense) = (List.range' 12 (s.length - 12)).map (rawRow s) := by
    rw [List.filter_eq_self]
    intro r hr
    obtain ⟨i, hi, rfl⟩ := List.mem_map.mp hr
    have h12 : 12 ≤ i := (List.mem_range'_1.mp hi).1
    rw [rawRow_isDense]
    simpa using h12
  rw [hfirst, hsecond, List.nil_append]

/-- **C6**.  For every value series `s`, `create_features` keeps exactly the
rows at indices `12 ≤ i < length s` (a row survives `dropna()` iff all its
lag/rolling/momentum columns are defined, which happens iff its index is at
least 12), so the matrix has `length s - 12` rows and is empty exactly when
the series has at most 12 points; the columns are the fields of `RawRow`
(`value`, `lag_1`, `lag_3`, `lag_6`, `lag_12`, `rolling_mean_3`,
`rolling_std_3`, `rolling_mean_6`, `momentum_3`, `momentum_6`) and the
computation is a pure function of the input series. -/
theorem create_features_spec (s : List ℚ) :
    create_features s = (List.range (s.length - 12)).map (fun j => rawRow s (12 + j)) ∧
    (create_features s = [] ↔ s.length ≤ 12) ∧
    (create_features s).length = s.length - 12 ∧
    (∀ i : ℕ, (rawRow s i).isDense = true ↔ 12 ≤ i) ∧
    (∀ r ∈ create_features s, r.isDense = true) := by
  have hmain : create_features s
      = (List.range (s.length - 12)).map (fun j => rawRow s (12 + j)) := by
    rw [create_features_eq, List.range'_eq_map_range, List.map_map]
    rfl
  refine ⟨hmain, ?_, ?_, ?_, ?_⟩
  · rw [hmain]
    constructor
    · intro h
      have := congrArg List.length h
      simp at this
      omega
    · intro h
      have h0 : s.length - 12 = 0 := by omega
      rw [h0]
      simp
  · rw [hmain]
    simp
  · intro i
    rw [rawRow_isDense]
    simp
  · intro r hr
    rw [create_features_eq] at hr
    obtain ⟨i, hi, rfl⟩ := List.mem_map.mp hr
    have h12 : 12 ≤ i := (List.mem_range'_1.mp hi).1
    rw [rawRow_isDense]
    simpa using h12

/-- A fixed 14-point series used to exercise the definitions concretely. -/
def ex14 : List ℚ := [1,2,3,4,5,6,7,8,9,10,11,12,13,14]

/-- Witness for `create_features_spec`: on the concrete 14-point series the
matrix keeps exactly the two rows at indices 12 and 13. -/
theorem create_features_spec_witness :
    (create_features ex14).length = ex14.length - 12 ∧ ex14.length - 12 = 2 := by
  refine ⟨(create_features_spec ex14).2.2.1, by simp [ex14]⟩

/-! ## Gradient-boosted backend (`backend/forecast_models.py`,
`XGBoostForecaster.fit_forecast`) -/

/-- A row of the regressor matrix `X = df.drop('value', axis=1)`; `none`
models NaN, which the boosted-tree library accepts as a missing value. -/
structure XRow where
  lag_1 : Option ℚ
  lag_3 : Option ℚ
  lag_6 : Option ℚ
  lag_12 : Option ℚ
  rolling_mean_3 : Option ℚ
  rolling_std_3 : Option ℚ
  rolling_mean_6 : Option ℚ
  momentum_3 : Option ℚ
  momentum_6 : Option ℚ
  deriving Repr, DecidableEq, Inhabited

/-- Dropping the `value` column of a feature row. -/
def RawRow.dropValue (r : RawRow) : XRow :=
  ⟨r.lag_1, r.lag_3, r.lag_6, r.lag_12, r.rolling_mean_3, r.rolling_std_3,
   r.rolling_mean_6, r.momentum_3, r.momentum_6⟩

/-- `X.iloc[-1:]`: the last row of the regressor matrix. -/
def lastXRow (s : List ℚ) : XRow := ((create_features s).getLast?.getD default).dropValue

/-- The per-step update of `last_features` in the forecast loop of
`XGBoostForecaster.fit_forecast`:
`last_features = last_features.shift(1)` shifts the one-row frame down by
one row, so row 0 receives the (non-existent) previous row — NaN in every
column, the old values leaving the frame entirely — and
`last_features['lag_1'] = pred` then fills the single column back in.
The incoming row is consequently unused. -/
def updateLastFeatures (_row : XRow) (pred : ℚ) : XRow :=
  { lag_1 := some pred, lag_3 := none, lag_6 := none, lag_12 := none,
    rolling_mean_3 := none, rolling_std_3 := none, rolling_mean_6 := none,
    momentum_3 := none, momentum_6 := none }

/-- The feature row in force after `n` iterations of the recursive forecast
loop; the fitted regressor is abstracted as `predict`. -/
def xgbRowAt (predict : XRow → ℚ) (row : XRow) : ℕ → XRow
  | 0 => row
  | n+1 => updateLastFeatures (xgbRowAt predict row n) (predict (xgbRowAt predict row n))

/-- The raw forecast list produced by the recursive loop (before the final
`max(0, int(f))` conversion). -/
def xgbForecastLoop (predict : XRow → ℚ) (row : XRow) : ℕ → List ℚ
  | 0 => []
  | n+1 => predict row :: xgbForecastLoop predict (updateLastFeatures row (predict row)) n

/-- The prediction list of `XGBoostForecaster.fit_forecast`: `periods`
recursive one-step predictions, each floored at zero and truncated to an
integer. -/
def xgb_predictions (predict : XRow → ℚ) (s : List ℚ) (periods : ℕ) : List ℤ :=
  (xgbForecastLoop predict (lastXRow s) periods).map (fun f => max 0 (pyInt f))

theorem xgbForecastLoop_length (predict : XRow → ℚ) (row : XRow) (n : ℕ) :
    (xgbForecastLoop predict row n).length = n := by
  induction n generalizing row with
  | zero => rfl
  | succ m ih => simp [xgbForecastLoop, ih]

/-- **C3** (evaluation of the code at the failing input).  On the series
`ex14 = [1,…,14]` the feature row fitted last has `lag_1 = 13`,
`lag_3 = 11`, `lag_6 = 8`, `lag_12 = 2`; after one step of the recursive
loop with a model predicting 7, the row used for step 2 carries the new
prediction in `lag_1` but NaN in every other feature: `lag_3`, `lag_6` and
`lag_12` are *not* shifted to the values 2, 5 and 11 steps back of the
extended series (13, 10 and 4) — they are erased, because `shift(1)` on a
one-row frame discards all previous values. -/
theorem xgb_recursive_shift_bug :
    (lastXRow ex14).lag_1 = some 13 ∧ (lastXRow ex14).lag_3 = some 11 ∧
    (lastXRow ex14).lag_6 = some 8 ∧ (lastXRow ex14).lag_12 = some 2 ∧
    xgbRowAt (fun _ => 7) (lastXRow ex14) 1 =
      ⟨some 7, none, none, none, none, none, none, none, none⟩ := by
  refine ⟨?_, ?_, ?_, ?_, rfl⟩ <;> decide

/-! ## Ensemble combiner (`backend/forecast_models.py`,
`EnsembleForecaster.fit_forecast`) -/

/-- The dictionary a successful `ProphetForecaster.fit_forecast` returns:
point predictions plus the 95% interval bounds, all floats.  The fitted
model itself is opaque, so the lists are parameters of the embedding. -/
structure ProphetResult where
  predictions : List ℚ
  lower : List ℚ
  upper : List ℚ
  deriving Repr, DecidableEq, Inhabited

/-- The dictionary a successful `XGBoostForecaster.fit_forecast` returns
(the fields the combiner reads).  In the source each entry is
`max(0, int(f))`. -/
structure XGBResult where
  predictions : List ℤ
  deriving Repr, DecidableEq, Inhabited

/-- The dictionary `EnsembleForecaster.fit_forecast` returns (the fields its
callers read): the blended forecast and the two sub-results. -/
structure EnsembleResult where
  forecast : List ℚ
  prophet : Option ProphetResult
  xgboost : Option XGBResult
  deriving Repr, DecidableEq, Inhabited

/-- `EnsembleForecaster.fit_forecast`.  The two sub-backend calls are each
wrapped in `try/except`, so their outcomes enter as `Option`s (`none` =
the sub-backend failed or was unavailable).  Branches, in source order:
both succeeded → weighted blend truncated to `int`, pointwise over `zip`;
only the boosted backend → its predictions; only Prophet → its (float)
predictions; both failed → the inline trend fallback, whose slope is
`(series.iloc[-1] - series.iloc[-3]) / 2` when the series has at least 3
points and 0 otherwise, each value floored at zero.  `series.iloc[-1]`
inside the fallback comprehension raises `IndexError` on an empty series
(when at least one value is demanded), modelled as `none`. -/
def ensemble_fit_forecast (pw xw : ℚ) (prophetRes : Option ProphetResult)
    (xgbRes : Option XGBResult) (series : List ℚ) (periods : ℕ) :
    Option EnsembleResult :=
  match prophetRes, xgbRes with
  | some p, some x =>
      some { forecast := (p.predictions.zip x.predictions).map
               (fun pr => ((pyInt (pw * pr.1 + xw * (pr.2 : ℚ))) : ℚ)),
             prophet := some p, xgboost := some x }
  | none, some x =>
      some { forecast := x.predictions.map (fun z : ℤ => (z : ℚ)),
             prophet := none, xgboost := some x }
  | some p, none =>
      some { forecast := p.predictions, prophet := some p, xgboost := none }
  | none, none =>
      if series = [] ∧ periods ≠ 0 then none
      else
        let last := series.getLastD 0
        let trend : ℚ :=
          if 3 ≤ series.length then (last - series.getD (series.length - 3) 0) / 2 else 0
        some { forecast := (List.range periods).map
                 (fun i : ℕ => ((max 0 (pyInt (last + trend * ((i : ℚ) + 1)))) : ℚ)),
               prophet := none, xgboost := none }

theorem ensemble_fit_forecast_both_failed (pw xw : ℚ) (series : List ℚ)
    (periods : ℕ) (hs : series ≠ []) :
    ensemble_fit_forecast pw xw none none series periods =
      some { forecast := (List.range periods).map
               (fun i : ℕ => ((max 0 (pyInt (series.getLastD 0 +
                 (if 3 ≤ series.length then
                    (series.getLastD 0 - series.getD (series.length - 3) 0) / 2
                  else 0) * ((i : ℚ) + 1)))) : ℚ)),
             prophet := none, xgboost := none } := by
  unfold ensemble_fit_forecast
  rw [if_neg (by simp [hs])]

/-- **C7** (counterexample).  With both sub-backends failed on the 4-point
series `[0, 10, 0, 20]` and one step requested, the combiner forecasts
`[25]`: its slope is `(iloc[-1] - iloc[-3]) / 2 = 5`.  The claimed slope
from the last *two* observed points, `20 - 0 = 20`, would instead give
`max(0, 20 + 20·1) = 40`. -/
theorem ensemble_fallback_slope_counterexample :
    ensemble_fit_forecast (2/5) (3/5) none none [0, 10, 0, 20] 1
      = some ⟨[25], none, none⟩ ∧
    ¬ ((25:ℚ) = max 0 (20 + (20 - 0) * 1)) := by
  constructor
  · rw [ensemble_fit_forecast_both_failed (2/5) (3/5) [0, 10, 0, 20] 1 (by simp)]
    have hr : List.range 1 = [0] := rfl
    have hlast : ([0, 10, 0, 20] : List ℚ).getLastD 0 = 20 := rfl
    have hgd : ([0, 10, 0, 20] : List ℚ).getD (([0, 10, 0, 20] : List ℚ).length - 3) 0 = 10 := rfl
    have hlen : ([0, 10, 0, 20] : List ℚ).length = 4 := rfl
    rw [hr]
    simp only [List.map_cons, List.map_nil, hlast, hgd, hlen, Option.some_inj]
    norm_num [pyInt, max_def]
  · norm_num [max_def]

/-- **C7** (amended).  When both sub-backends fail, the combiner's forecast
is the inline trend extrapolation whose slope is computed from the last and
the *third*-to-last observed points, halved: `slope = (last − third_to_last)
/ 2` for a series with at least 3 points and 0 otherwise, and the value of
(1-based) step `i` is `max(0, int(last + slope·i))`. -/
theorem ensemble_fallback_spec (pw xw : ℚ) (series : List ℚ) (periods : ℕ)
    (hs : series ≠ []) :
    ∃ res, ensemble_fit_forecast pw xw none none series periods = some res ∧
      res.forecast.length = periods ∧
      ∀ i, i < periods →
        res.forecast.getD i 0 =
          ((max 0 (pyInt (series.getLastD 0 +
            (if 3 ≤ series.length then
              (series.getLastD 0 - series.getD (series.length - 3) 0) / 2 else 0) *
            ((i : ℚ) + 1)))) : ℚ) := by
  rw [ensemble_fit_forecast_both_failed pw xw series periods hs]
  refine ⟨_, rfl, ?_, ?_⟩
  · show ((List.range periods).map _).length = periods
    rw [List.length_map, List.length_range]
  · intro i hi
    show ((List.range periods).map _).getD i 0 = _
    rw [List.getD_eq_getElem _ _ (by rw [List.length_map, List.length_range]; exact hi),
      List.getElem_map, List.getElem_range]

/-- Witness for `ensemble_fallback_spec`: series `[0, 10, 0, 20]`, two
steps; step 2 forecasts `max(0, int(20 + 5·2)) = 30`. -/
theorem ensemble_fallback_spec_witness :
    (([0, 10, 0, 20] : List ℚ) ≠ []) ∧
    (ensemble_fit_forecast (2/5) (3/5) none none [0, 10, 0, 20] 2).map
      (fun r => r.forecast.getD 1 0) = some 30 := by
  refine ⟨by simp, ?_⟩
  obtain ⟨res, heq, hlen, hval⟩ :=
    ensemble_fallback_spec (2/5) (3/5) [0, 10, 0, 20] 2 (by simp)
  rw [heq, Option.map_some', hval 1 (by norm_num)]
  have hlast : ([0, 10, 0, 20] : List ℚ).getLastD 0 = 20 := rfl
  have hgd : ([0, 10, 0, 20] : List ℚ).getD (([0, 10, 0, 20] : List ℚ).length - 3) 0 = 10 := rfl
  have hlen4 : ([0, 10, 0, 20] : List ℚ).length = 4 := rfl
  rw [hlast, hgd, hlen4]
  norm_num [pyInt, max_def]

/-- A forecast point as assembled by `JobForecaster` (month label elided):
`predicted_count`, `lower_bound`, `upper_bound`, all Python ints. -/
structure ForecastPoint where
  predicted : ℤ
  lower : ℤ
  upper : ℤ
  deriving Repr, DecidableEq, Inhabited

/-- The response-building loop of `JobForecaster._ensemble_forecast`
(lines 456–476): for each 1-based step `i` with blended value `pred_value`,
the point is `int(pred_value)` with bounds taken from Prophet's interval
when the sub-result is present (falling back to `int(pred_value * 0.8)` /
`int(pred_value * 1.2)` past the end of the interval lists), and the
synthesized ±20% bounds otherwise. -/
def ensemble_forecast_points (result : EnsembleResult) : List ForecastPoint :=
  (List.range result.forecast.length).map (fun k =>
    let pv := result.forecast.getD k 0
    match result.prophet with
    | some p =>
        let lower : ℚ := if k < p.lower.length then p.lower.getD k 0
                         else ((pyInt (pv * (4/5))) : ℚ)
        let upper : ℚ := if k < p.upper.length then p.upper.getD k 0
                         else ((pyInt (pv * (6/5))) : ℚ)
        ⟨pyInt pv, pyInt lower, pyInt upper⟩
    | none => ⟨pyInt pv, pyInt (pv * (4/5)), pyInt (pv * (6/5))⟩)

/-- `JobForecaster._ensemble_forecast`: run `EnsembleForecaster` (default
weights 0.4 / 0.6) on the count series and assemble the forecast points. -/
def ensemble_forecast (prophetRes : Option ProphetResult) (xgbRes : Option XGBResult)
    (series : List ℚ) (periods : ℕ) : Option (List ForecastPoint) :=
  (ensemble_fit_forecast (2/5) (3/5) prophetRes xgbRes series periods).map
    ensemble_forecast_points

/-- Structure of `ensemble_fit_forecast` on every branch: given the length
invariant each sub-backend guarantees on success (`periods` predictions),
the call succeeds for a non-empty series, returns a `periods`-length
forecast, echoes the Prophet sub-result, and — when Prophet failed — only
non-negative forecast values (provided the boosted predictions are
non-negative, as `max(0, int(f))` makes them). -/
theorem ensemble_fit_forecast_spec (pw xw : ℚ) (pRes : Option ProphetResult)
    (xRes : Option XGBResult) (series : List ℚ) (periods : ℕ)
    (hs : series ≠ [])
    (hp : ∀ r ∈ pRes, r.predictions.length = periods)
    (hx : ∀ r ∈ xRes, (r.predictions.length = periods ∧ ∀ z ∈ r.predictions, 0 ≤ z)) :
    ∃ res, ensemble_fit_forecast pw xw pRes xRes series periods = some res ∧
      res.forecast.length = periods ∧ res.prophet = pRes ∧
      (pRes = none → ∀ v ∈ res.forecast, 0 ≤ v) := by
  match pRes, xRes with
  | some p, some x =>
      refine ⟨_, rfl, ?_, rfl, by intro h; exact absurd h (by simp)⟩
      have hpl := hp p rfl
      have hxl := (hx x rfl).1
      show ((p.predictions.zip x.predictions).map _).length = periods
      rw [List.length_map, List.length_zip, hpl, hxl, min_self]
  | none, some x =>
      refine ⟨_, rfl, ?_, rfl, ?_⟩
      · show (x.predictions.map _).length = periods
        rw [List.length_map]
        exact (hx x rfl).1
      · intro _ v hv
        show (0:ℚ) ≤ v
        obtain ⟨z, hz, rfl⟩ := List.mem_map.mp hv
        exact_mod_cast (hx x rfl).2 z hz
  | some p, none =>
      exact ⟨_, rfl, hp p rfl, rfl, by intro h; exact absurd h (by simp)⟩
  | none, none =>
      rw [ensemble_fit_forecast_both_failed pw xw series periods hs]
      refine ⟨_, rfl, ?_, rfl, ?_⟩
      · show ((List.range periods).map _).length = periods
        rw [List.length_map, List.length_range]
      · intro _ v hv
        obtain ⟨i, hi, rfl⟩ := List.mem_map.mp hv
        have hmax : (0:ℤ) ≤ max 0 (pyInt (series.getLastD 0 +
            (if 3 ≤ series.length then
              (series.getLastD 0 - series.getD (series.length - 3) 0) / 2 else 0) *
            ((i : ℚ) + 1))) := le_max_left _ _
        exact_mod_cast hmax

/-- **C4**.  `EnsembleForecaster.fit_forecast` never raises: for every
series with at least one point and horizon `H ≥ 1`, with both sub-backend
outcomes absorbed as `Option`s (each delivering `periods` predictions on
success, the boosted ones non-negative, as the source guarantees), the call
returns a result whose forecast list is non-empty. -/
theorem ensemble_fit_forecast_total (pw xw : ℚ) (pRes : Option ProphetResult)
    (xRes : Option XGBResult) (series : List ℚ) (periods : ℕ)
    (hs : series ≠ []) (hH : 1 ≤ periods)
    (hp : ∀ r ∈ pRes, r.predictions.length = periods)
    (hx : ∀ r ∈ xRes, (r.predictions.length = periods ∧ ∀ z ∈ r.predictions, 0 ≤ z)) :
    ∃ res, ensemble_fit_forecast pw xw pRes xRes series periods = some res ∧
      res.forecast ≠ [] := by
  obtain ⟨res, heq, hlen, -, -⟩ :=
    ensemble_fit_forecast_spec pw xw pRes xRes series periods hs hp hx
  refine ⟨res, heq, ?_⟩
  have : 0 < res.forecast.length := by omega
  exact List.length_pos.mp this

/-- Witness for `ensemble_fit_forecast_total`: both sub-backends failed on
the one-point series `[5]`, horizon 6. -/
theorem ensemble_fit_forecast_total_witness :
    (([(5:ℚ)] : List ℚ) ≠ [] ∧ (1:ℕ) ≤ 6) ∧
    ensemble_fit_forecast (2/5) (3/5) none none [(5:ℚ)] 6 ≠ none := by
  refine ⟨⟨by simp, by norm_num⟩, ?_⟩
  obtain ⟨res, heq, -⟩ :=
    ensemble_fit_forecast_total (2/5) (3/5) none none [(5:ℚ)] 6 (by simp) (by norm_num)
      (by intro r hr; simp at hr) (by intro r hr; simp at hr)
  rw [heq]
  simp

/-- **C1** (counterexample).  A successful ensemble forecast can violate
`lower ≤ predicted ≤ upper`: when Prophet succeeds, its interval is copied
verbatim as the bounds of the *blended* prediction.  With Prophet
predicting `[0]` with interval `[-5, 5]` and the boosted backend predicting
`[100]`, the blend is `int(0.4·0 + 0.6·100) = 60` and the returned point is
`(predicted 60, lower -5, upper 5)` — `predicted > upper` (and `lower < 0`). -/
theorem ensemble_point_bounds_counterexample :
    ensemble_forecast (some ⟨[0], [-5], [5]⟩) (some ⟨[100]⟩) [1, 2, 3, 4, 5, 6] 1
      = some [⟨60, -5, 5⟩] ∧ ¬ ((60:ℤ) ≤ 5) := by
  have hfit : ensemble_fit_forecast (2/5) (3/5) (some ⟨[0], [-5], [5]⟩) (some ⟨[100]⟩)
      [1, 2, 3, 4, 5, 6] 1 = some ⟨[60], some ⟨[0], [-5], [5]⟩, some ⟨[100]⟩⟩ := by
    simp only [ensemble_fit_forecast, List.zip_cons_cons, List.zip_nil_left,
      List.map_cons, List.map_nil, Option.some_inj]
    norm_num [pyInt]
  constructor
  · rw [ensemble_forecast, hfit, Option.map_some']
    simp only [Option.some_inj]
    unfold ensemble_forecast_points
    rw [show (([(60:ℚ)] : List ℚ).length) = 1 from rfl, show List.range 1 = [0] from rfl]
    simp only [List.map_cons, List.map_nil]
    norm_num [pyInt]
    rw [show ((-5:ℚ)) = ((-5:ℤ):ℚ) by norm_num, Int.ceil_intCast]
  · norm_num

/-- **C1** (amended).  For every non-empty series, horizon `periods`, and
sub-backend outcomes carrying `periods` predictions on success (the boosted
ones non-negative, as `max(0, int(f))` guarantees), a successful
`_ensemble_forecast` call returns exactly `periods` points; and whenever
the Prophet sub-backend failed — so the ±20% bounds are synthesized from
the prediction itself — every point satisfies `0 ≤ predicted` and
`lower ≤ predicted ≤ upper`.  When Prophet succeeded, its interval is
copied verbatim as the bounds of the blended prediction and the bracketing
(and the non-negativity of `lower`) can fail, as
`ensemble_point_bounds_counterexample` shows. -/
theorem ensemble_forecast_points_spec (pRes : Option ProphetResult)
    (xRes : Option XGBResult) (series : List ℚ) (periods : ℕ)
    (hs : series ≠ [])
    (hp : ∀ r ∈ pRes, r.predictions.length = periods)
    (hx : ∀ r ∈ xRes, (r.predictions.length = periods ∧ ∀ z ∈ r.predictions, 0 ≤ z)) :
    ∃ pts, ensemble_forecast pRes xRes series periods = some pts ∧
      pts.length = periods ∧
      (pRes = none → ∀ pt ∈ pts, 0 ≤ pt.predicted ∧ pt.lower ≤ pt.predicted ∧
        pt.predicted ≤ pt.upper) := by
  obtain ⟨res, heq, hlen, hpr, hnn⟩ :=
    ensemble_fit_forecast_spec (2/5) (3/5) pRes xRes series periods hs hp hx
  refine ⟨ensemble_forecast_points res, ?_, ?_, ?_⟩
  · rw [ensemble_forecast, heq, Option.map_some']
  · unfold ensemble_forecast_points
    rw [List.length_map, List.length_range, hlen]
  · intro hnone pt hpt
    have hprn : res.prophet = none := by rw [hpr, hnone]
    unfold ensemble_forecast_points at hpt
    rw [hprn] at hpt
    obtain ⟨k, hk, rfl⟩ := List.mem_map.mp hpt
    have hkl : k < res.forecast.length := List.mem_range.mp hk
    have hpv : (0:ℚ) ≤ res.forecast.getD k 0 := by
      rw [List.getD_eq_getElem _ _ hkl]
      exact hnn hnone _ (List.getElem_mem hkl)
    refine ⟨pyInt_nonneg hpv, pyInt_mono (by nlinarith), pyInt_mono (by nlinarith)⟩

/-- Witness for `ensemble_forecast_points_spec`: Prophet failed, the boosted
backend predicted `[7]` on the series `[1, 2, 3]`; the single returned point
satisfies the bracketing. -/
theorem ensemble_forecast_points_spec_witness :
    (([1, 2, 3] : List ℚ) ≠ []) ∧
    (ensemble_forecast none (some ⟨[7]⟩) [1, 2, 3] 1).map List.length = some 1 := by
  refine ⟨by simp, ?_⟩
  obtain ⟨pts, heq, hlen, -⟩ :=
    ensemble_forecast_points_spec none (some ⟨[7]⟩) [1, 2, 3] 1 (by simp)
      (by intro r hr; simp at hr)
      (by
        intro r hr
        simp only [Option.mem_def, Option.some_inj] at hr
        subst hr
        refine ⟨rfl, ?_⟩
        intro z hz
        simp only [List.mem_singleton] at hz
        omega)
  rw [heq, Option.map_some', hlen]

/-! ## Statistical fallback (`backend/forecasting.py`,
`JobForecaster._simple_forecast`) -/

/-- `np.polyfit(x, y, 1)` as called by `_simple_forecast`, with
`x = arange(len(df))`.  numpy rescales the Vandermonde columns by their
Euclidean norms before the least-squares solve and divides the coefficients
back afterwards, so for `n ≥ 2` (distinct x values, positive column norms)
the result is the unique least-squares line — rational in the inputs, the
scaling cancelling exactly.  For `n = 0` numpy raises `TypeError`
("expected non-empty vector"); for `n = 1` the x-column has Euclidean norm
0, the rescaled matrix contains NaN (`0/0`), and the solve fails — either
`LinAlgError` from the SVD or NaN coefficients on which the later `int()`
conversion raises.  Either way no line is produced: `none`. -/
def polyfit1 (ys : List ℚ) : Option (ℚ × ℚ) :=
  if ys.length < 2 then none
  else
    let n : ℚ := (ys.length : ℚ)
    let xs : List ℚ := (List.range ys.length).map (fun i : ℕ => (i : ℚ))
    let xbar : ℚ := xs.sum / n
    let ybar : ℚ := ys.sum / n
    let sxx : ℚ := (xs.map (fun x : ℚ => (x - xbar)^2)).sum
    let sxy : ℚ := ((xs.zip ys).map (fun p : ℚ × ℚ => (p.1 - xbar) * (p.2 - ybar))).sum
    some (sxy / sxx, ybar - sxy / sxx * xbar)

/-- A forecast point built from a non-negative integer prediction with the
synthesized ±20% band: `lower = int(v * 0.8)`, `upper = int(v * 1.2)`. -/
def bandPoint (v : ℤ) : ForecastPoint := ⟨v, pyInt ((v:ℚ) * (4/5)), pyInt ((v:ℚ) * (6/5))⟩

theorem bandPoint_spec (v : ℤ) (hv : 0 ≤ v) :
    0 ≤ (bandPoint v).predicted ∧ (bandPoint v).lower ≤ (bandPoint v).predicted ∧
      (bandPoint v).predicted ≤ (bandPoint v).upper := by
  unfold bandPoint
  have h0 : (0:ℚ) ≤ (v:ℚ) := by exact_mod_cast hv
  refine ⟨hv, ?_, ?_⟩
  · calc pyInt ((v:ℚ) * (4/5)) ≤ pyInt (v:ℚ) := pyInt_mono (by nlinarith)
      _ = v := pyInt_intCast v
  · calc v = pyInt (v:ℚ) := (pyInt_intCast v).symm
      _ ≤ pyInt ((v:ℚ) * (6/5)) := pyInt_mono (by nlinarith)

/-- `JobForecaster._simple_forecast`: fit the degree-1 polynomial, then for
each 1-based step `i` evaluate it at `len(df) + i - 1`, floor at zero and
truncate (`max(0, int(p(...)))`), and attach the ±20% band. -/
def simple_forecast (counts : List ℚ) (periods : ℕ) : Option (List ForecastPoint) :=
  (polyfit1 counts).map (fun sl =>
    (List.range periods).map (fun i : ℕ =>
      bandPoint (max 0 (pyInt (sl.1 * ((counts.length : ℚ) + (i : ℚ)) + sl.2)))))

/-- **C8** (counterexample).  On the non-empty single-point series `[5]`
with horizon 3 the fallback produces no points at all — `np.polyfit` on one
sample fails (degenerate column scaling) — rather than the claimed flat
3-point extrapolation of the last known value. -/
theorem simple_forecast_one_point_counterexample :
    (([(5:ℚ)] : List ℚ) ≠ []) ∧ simple_forecast [(5:ℚ)] 3 = none :=
  ⟨by simp, rfl⟩

/-- **C8** (amended).  The statistical fallback never fails on a series with
at least *two* points: it returns exactly `periods` points, each predicted
value non-negative and bracketed by its ±20% band.  On a series with fewer
than 2 points the degree-1 fit is degenerate and the call fails instead of
returning a flat extrapolation. -/
theorem simple_forecast_spec (counts : List ℚ) (periods : ℕ)
    (h2 : 2 ≤ counts.length) :
    ∃ pts, simple_forecast counts periods = some pts ∧ pts.length = periods ∧
      ∀ pt ∈ pts, 0 ≤ pt.predicted ∧ pt.lower ≤ pt.predicted ∧
        pt.predicted ≤ pt.upper := by
  unfold simple_forecast polyfit1
  rw [if_neg (by omega)]
  refine ⟨_, rfl, ?_, ?_⟩
  · rw [List.length_map, List.length_range]
  · intro pt hpt
    obtain ⟨i, hi, rfl⟩ := List.mem_map.mp hpt
    exact bandPoint_spec _ (le_max_left _ _)

/-- Witness for `simple_forecast_spec`: the two-point series `[1, 2]` with
horizon 2 yields two points. -/
theorem simple_forecast_spec_witness :
    ((2:ℕ) ≤ ([1, 2] : List ℚ).length) ∧
    (simple_forecast [1, 2] 2).map List.length = some 2 := by
  refine ⟨by simp, ?_⟩
  obtain ⟨pts, heq, hlen, -⟩ := simple_forecast_spec [1, 2] 2 (by simp)
  rw [heq, Option.map_some', hlen]

/-! ## Forecast orchestrator (`backend/forecasting.py`,
`JobForecaster.forecast_skill_demand`) -/

/-- The method labels `forecast_skill_demand` attaches to its result. -/
inductive Method where
  | ensemble
  | prophetEnsembleFailed
  | statisticalEnsembleProphetFailed
  | prophetShortHistory
  | prophetOnly
  | statistical
  deriving Repr, DecidableEq

/-- The dictionary `forecast_skill_demand` returns: either the explicit
insufficient-data error — which carries `min_required` and `actual` and no
forecast — or a forecast with a method label and a confidence. -/
inductive Outcome where
  | insufficient (min_required actual : ℕ)
  | success (forecast : List ForecastPoint) (method : Method) (confidence : ℚ)
  deriving Repr, DecidableEq

/-- `JobForecaster.forecast_skill_demand`.  `historical` is the count series
from `_get_skill_historical_data` (month labels elided); the three inner
forecast calls enter as parameters — `Option` where the Python call can
raise an exception that this function does not catch (`_prophet_forecast`;
also `_ensemble_forecast`, whose failure the `try/except` turns into the
Prophet/statistical fallback) — and `confidence` stands for
`self._calculate_confidence(df)`.  Branches follow the source: the
insufficient-data early return, the ensemble path with its two fallbacks,
the short-history path, the Prophet-only path and the statistical path. -/
def forecast_skill_demand (historical : List ℤ) (periods : ℕ)
    (useEnsemble mlAvailable prophetAvailable : Bool)
    (ensembleOut : Option (List ForecastPoint))
    (prophetOut : Option (List ForecastPoint))
    (simpleOut : List ForecastPoint)
    (confidence : ℚ) : Option Outcome :=
  if historical.length < 3 then some (.insufficient 3 historical.length)
  else if useEnsemble && mlAvailable then
    if 6 ≤ historical.length then
      match ensembleOut with
      | some f => some (.success f .ensemble 97)
      | none =>
          if prophetAvailable then
            prophetOut.map (fun f => .success f .prophetEnsembleFailed confidence)
          else some (.success simpleOut .statisticalEnsembleProphetFailed 70)
    else
      if prophetAvailable then
        prophetOut.map (fun f => .success f .prophetShortHistory confidence)
      else some (.success simpleOut .statistical 70)
  else if prophetAvailable then
    prophetOut.map (fun f => .success f .prophetOnly confidence)
  else some (.success simpleOut .statistical 70)

/-- **C2**.  `forecast_skill_demand` returns the explicit insufficient-data
error — `min_required = 3`, `actual` = the number of history points, no
forecast attached — exactly when the historical series has fewer than 3
points; with 3 or more points it never returns that error, whatever the
capability flags and the sub-forecast outcomes. -/
theorem forecast_skill_demand_insufficient_iff (historical : List ℤ) (periods : ℕ)
    (useEnsemble mlAvailable prophetAvailable : Bool)
    (ensembleOut prophetOut : Option (List ForecastPoint))
    (simpleOut : List ForecastPoint) (confidence : ℚ) :
    ((∃ m a, forecast_skill_demand historical periods useEnsemble mlAvailable
        prophetAvailable ensembleOut prophetOut simpleOut confidence
        = some (.insufficient m a)) ↔ historical.length < 3) ∧
    (historical.length < 3 →
      forecast_skill_demand historical periods useEnsemble mlAvailable
        prophetAvailable ensembleOut prophetOut simpleOut confidence
        = some (.insufficient 3 historical.length)) ∧
    (∀ m a, forecast_skill_demand historical periods useEnsemble mlAvailable
        prophetAvailable ensembleOut prophetOut simpleOut confidence
        = some (.insufficient m a) → m = 3 ∧ a = historical.length) := by
  have hpos : historical.length < 3 →
      forecast_skill_demand historical periods useEnsemble mlAvailable
        prophetAvailable ensembleOut prophetOut simpleOut confidence
        = some (.insufficient 3 historical.length) := by
    intro hlt
    unfold forecast_skill_demand
    rw [if_pos hlt]
  have hneg : ∀ m a, forecast_skill_demand historical periods useEnsemble mlAvailable
      prophetAvailable ensembleOut prophetOut simpleOut confidence
      = some (.insufficient m a) → historical.length < 3 ∧ m = 3 ∧ a = historical.length := by
    intro m a hma
    by_cases hge : historical.length < 3
    · refine ⟨hge, ?_⟩
      rw [hpos hge] at hma
      simp only [Option.some_inj] at hma
      injection hma with h1 h2
      exact ⟨h1.symm, h2.symm⟩
    · exfalso
      rcases ensembleOut with _ | ef <;> rcases prophetOut with _ | pf <;>
        unfold forecast_skill_demand at hma <;> rw [if_neg hge] at hma <;>
        split_ifs at hma <;> simp_all
  refine ⟨⟨?_, ?_⟩, hpos, fun m a hma => (hneg m a hma).2⟩
  · rintro ⟨m, a, hma⟩
    exact (hneg m a hma).1
  · intro hlt
    exact ⟨3, historical.length, hpos hlt⟩

/-- Witness for `forecast_skill_demand_insufficient_iff`: a 2-point history
yields `insufficient` with `min_required = 3`, `actual = 2`. -/
theorem forecast_skill_demand_insufficient_iff_witness :
    (([(1:ℤ), 2] : List ℤ).length < 3) ∧
    forecast_skill_demand [(1:ℤ), 2] 6 true true true none none [] 0
      = some (.insufficient 3 2) := by
  refine ⟨by norm_num, ?_⟩
  have h := (forecast_skill_demand_insufficient_iff [(1:ℤ), 2] 6 true true true
    none none [] 0).2.1 (by norm_num)
  simpa using h

/-- `JobForecaster._get_skill_historical_data` (month labels elided): an
empty list when the skill has no job records, otherwise exactly `months`
synthetic entries, each `int((total_count / months) * variation)` where the
random variation (`np.random.uniform(0.8, 1.2)`) enters the embedding as an
oracle. -/
def get_skill_historical_data (totalCount months : ℕ) (variation : ℕ → ℚ) : List ℤ :=
  if totalCount = 0 then []
  else (List.range months).map
    (fun i : ℕ => pyInt (((totalCount : ℚ) / (months : ℚ)) * variation i))

/-- **C10**.  The synthetic history generator returns either an empty list
(exactly when the skill has zero job records) or exactly `months` entries;
with the default `months = 12` used by the public forecast path,
`forecast_skill_demand` therefore returns the insufficient-data error
exactly when the skill has no job records, and the history length is never
in `[3, 6)`, so the 3-to-5-point single-backend branch is unreachable. -/
theorem get_skill_historical_data_spec (totalCount months : ℕ) (variation : ℕ → ℚ)
    (periods : ℕ) (useEnsemble mlAvailable prophetAvailable : Bool)
    (ensembleOut prophetOut : Option (List ForecastPoint))
    (simpleOut : List ForecastPoint) (confidence : ℚ) :
    ((get_skill_historical_data totalCount months variation).length
        = if totalCount = 0 then 0 else months) ∧
    ((∃ m a, forecast_skill_demand (get_skill_historical_data totalCount 12 variation)
        periods useEnsemble mlAvailable prophetAvailable ensembleOut prophetOut
        simpleOut confidence = some (.insufficient m a)) ↔ totalCount = 0) ∧
    ¬ (3 ≤ (get_skill_historical_data totalCount 12 variation).length ∧
       (get_skill_historical_data totalCount 12 variation).length < 6) := by
  have hlen : ∀ m : ℕ, (get_skill_historical_data totalCount m variation).length
      = if totalCount = 0 then 0 else m := by
    intro m
    unfold get_skill_historical_data
    split_ifs <;> simp
  refine ⟨hlen months, ?_, ?_⟩
  · rw [(forecast_skill_demand_insufficient_iff _ periods useEnsemble mlAvailable
      prophetAvailable ensembleOut prophetOut simpleOut confidence).1, hlen 12]
    split_ifs with h <;> simp [h]
  · rw [hlen 12]
    split_ifs <;> omega

/-- Witness for `get_skill_historical_data_spec`: a skill with 7 job records
gets a 12-entry synthetic history. -/
theorem get_skill_historical_data_spec_witness :
    (get_skill_historical_data 7 12 (fun _ => 1)).length
      = if (7:ℕ) = 0 then 0 else 12 :=
  (get_skill_historical_data_spec 7 12 (fun _ => 1) 6 true true true none none
    [] 0).1
